import Mathlib

/-!
Shallow embedding of the redox core (crates/redox-core) in Lean 4.

Modelling conventions:
* `f32` values are modelled as exact rationals (`ℚ`).  All arithmetic in the
  embedded code paths is +, -, *, /, abs, min/max, clamp, floor and round,
  which are exact over `ℚ`; no claim below depends on f32 rounding.
* `usize` indices are `ℕ`; `i32` values are `ℤ` (with explicit two's-complement
  wrapping / saturation where the source casts).
* Rust `Vec<T>` is `List T`; `HashMap` is an association list; the iteration
  order of `HashSet` (only used by `SpatialGrid::query`) is modelled as
  first-insertion order — no theorem below depends on that order.
* The arrays `[f32; 5]` indexed by the speed tier are `Fin 5 → ℚ`, and the
  speed tier itself is `Fin 5` (every source read of `state.speed` indexes a
  5-element array, so in-range is part of the source's contract).
-/

namespace Redox

/-- 2D vector of rationals, mirroring `glam::Vec2` (f32 components). -/
structure Vec2 where
  x : ℚ
  y : ℚ
deriving DecidableEq, Repr

namespace Vec2

def add (a b : Vec2) : Vec2 := ⟨a.x + b.x, a.y + b.y⟩

def sub (a b : Vec2) : Vec2 := ⟨a.x - b.x, a.y - b.y⟩

def smul (a : Vec2) (k : ℚ) : Vec2 := ⟨a.x * k, a.y * k⟩

/-- `Vec2::dot`. -/
def dot (a b : Vec2) : ℚ := a.x * b.x + a.y * b.y

end Vec2

/-- `f32::round`: round half away from zero (Rust semantics). -/
def rustRound (q : ℚ) : ℤ :=
  if 0 ≤ q then ⌊q + 1/2⌋ else -⌊-q + 1/2⌋

/-- `f32::clamp(lo, hi)` (requires `lo ≤ hi` in Rust; written as the
    source's if-chain). -/
def rustClamp (x lo hi : ℚ) : ℚ :=
  if x < lo then lo else if x > hi then hi else x

/-- `f32::MAX` as an exact rational: `(2 - 2⁻²³) · 2¹²⁷ = 2¹²⁸ - 2¹⁰⁴`
    (written as a numeral so that kernel reduction works). -/
def f32MAX : ℚ := 340282346638528859811704183484516925440

/-- Saturating float-to-`i32` cast (`as i32` in Rust saturates);
    the bounds are `-2³¹` and `2³¹ - 1`. -/
def castI32 (z : ℤ) : ℤ := max (-2147483648) (min 2147483647 z)

/-- `i32` reinterpreted `as u32` (two's complement, `z mod 2³²`), as a
    natural number. -/
def toU32 (z : ℤ) : ℕ := (z % 4294967296).toNat

/-! ### state.rs -/

/-- `state::GameMode`. -/
inductive GameMode where
  | Cube
  | Ship
deriving DecidableEq, Repr

/-- `state::Action`. -/
inductive Action where
  | None
  | Press
  | Release
deriving DecidableEq, Repr

/-- `state::State`. -/
structure State where
  position : Vec2
  vy : ℚ
  on_ground : Bool
  rotation : ℚ
  mode : GameMode
  gravity_flipped : Bool
  floor : ℚ
  ceiling : ℚ
  pressing : Bool
  speed : Fin 5
deriving DecidableEq, Repr

/-! ### game_object -/

/-- `game_object::GameObjectType` (full enum from the source). -/
inductive GameObjectType where
  | Solid
  | Hazard
  | Sawblade
  | InverseGravityPortal
  | NormalGravityPortal
  | ShipPortal
  | CubePortal
  | Decoration
  | YellowJumpPad
  | PinkJumpPad
  | GravityPad
  | YellowJumpRing
  | PinkJumpRing
  | GravityRing
  | InverseMirrorPortal
  | NormalMirrorPortal
  | BallPortal
  | RegularSizePortal
  | MiniSizePortal
  | UfoPortal
  | Modifier
  | Breakable
  | SecretCoin
  | DualPortal
  | SoloPortal
  | Slope
  | WavePortal
  | RobotPortal
  | TeleportPortal
  | GreenRing
  | Collectible
  | UserCoin
  | DropRing
  | SpiderPortal
  | RedJumpPad
  | RedJumpRing
  | CustomRing
  | DashRing
  | GravityDashRing
  | CollisionObject
  | Special
  | SwingPortal
  | GravityTogglePortal
  | SpiderOrb
  | SpiderPad
  | TeleportOrb
  | AnimatedHazard
  | Unknown
deriving DecidableEq, Repr

/-- `game_object::HitboxShape`. -/
inductive HitboxShape where
  | Rectangle
  | Circle
deriving DecidableEq, Repr

/-- `game_object::OBB2D`: center, four corners, two axes. -/
structure OBB2D where
  center : Vec2
  corners : Fin 4 → Vec2
  axes : Fin 2 → Vec2

namespace OBB2D

/-- `OBB2D::new(center, width, height, 0.0)`.  The source computes
    `cos`/`sin` of the rotation; every embedded call site passes rotation
    `0.0`, where `cos = 1` and `sin = 0` exactly. -/
def new0 (center : Vec2) (width height : ℚ) : OBB2D :=
  let cos_a : ℚ := 1
  let sin_a : ℚ := 0
  let hw := width * (1/2)
  let hh := height * (1/2)
  let axis_x : Vec2 := ⟨cos_a, sin_a⟩
  let axis_y : Vec2 := ⟨-sin_a, cos_a⟩
  let x := axis_x.smul hw
  let y := axis_y.smul hh
  { center := center
    corners := ![ (center.sub x).sub y, (center.add x).sub y,
                  (center.add x).add y, (center.sub x).add y ]
    axes := ![axis_x, axis_y] }

/-- `OBB2D::project_onto`: min/max of corner projections, with the source's
    `if p < min { … } else if p > max { … }` update. -/
def project_onto (o : OBB2D) (axis : Vec2) : ℚ × ℚ :=
  let p0 := (o.corners 0).dot axis
  let step := fun (mm : ℚ × ℚ) (c : Vec2) =>
    let p := c.dot axis
    if p < mm.1 then (p, mm.2) else if p > mm.2 then (mm.1, p) else mm
  step (step (step (p0, p0) (o.corners 1)) (o.corners 2)) (o.corners 3)

/-- Separation test of `self` from `other` along one axis. -/
def separatedOn (a b : OBB2D) (axis : Vec2) : Bool :=
  let (min_a, max_a) := a.project_onto axis
  let (min_b, max_b) := b.project_onto axis
  decide (max_a < min_b) || decide (max_b < min_a)

/-- `OBB2D::overlaps`: SAT over both boxes' axes (four axes total). -/
def overlaps (a b : OBB2D) : Bool :=
  !(separatedOn a b (a.axes 0)) && !(separatedOn a b (a.axes 1)) &&
  !(separatedOn a b (b.axes 0)) && !(separatedOn a b (b.axes 1))

end OBB2D

/-- `game_object::GameObject`. -/
structure GameObject where
  id : ℤ
  object_type : GameObjectType
  position : Vec2
  rotation : ℚ
  scale : Vec2
  flip_x : Bool
  flip_y : Bool
  hitbox_shape : HitboxShape
  width : ℚ
  height : ℚ
  obb : Option OBB2D

/-! ### config.rs -/

/-- `config::PhysicsParams`. -/
structure PhysicsParams where
  gravities : Fin 5 → ℚ
  jump_velocities : Fin 5 → ℚ
  player_speeds : Fin 5 → ℚ
  player_width : ℚ
  player_height : ℚ
  ship_velocities : Fin 5 → ℚ
  ship_bounds : ℚ
  dt : ℚ
  vertical_dt_scale : ℚ
  vy_quantize_step : ℚ

/-- `PhysicsParams::default()`: the exact decimal literals of the source. -/
def PhysicsParams.default : PhysicsParams where
  gravities := ![-2747.52, -2794.1082, -2786.4, -2799.36, -2799.36]
  jump_velocities := ![573.48175, 603.72174, 616.6817, 606.42175, 606.42175]
  player_speeds := ![251.16008, 311.58009, 387.42014, 468.00014, 576.0002]
  player_width := 30
  player_height := 30
  ship_velocities := ![101.54149, 103.4855, 103.37749, 103.80949, 103.80949]
  ship_bounds := 300
  dt := 1 / 240
  vertical_dt_scale := 1
  vy_quantize_step := 1000

/-- `config::SearchConfig`. -/
structure SearchConfig where
  heuristic_weight : ℚ
  x_quant : ℚ
  y_quant : ℚ
  vy_quant : ℚ
  stagnation_check_interval : ℕ
  min_progress_per_interval : ℚ

/-- `SearchConfig::default()`. -/
def SearchConfig.default : SearchConfig where
  heuristic_weight := 1.8
  x_quant := 1
  y_quant := 1
  vy_quant := 10
  stagnation_check_interval := 50000000
  min_progress_per_interval := 15

/-- `config::Config`. -/
structure Config where
  physics : PhysicsParams
  search : SearchConfig

/-- `Config::default()`. -/
def Config.default : Config :=
  { physics := PhysicsParams.default, search := SearchConfig.default }

/-! ### simulation/physics.rs -/

/-- Ship-mode acceleration selection: the inner `if` chain of
    `physics::simulate_step` (Ship arm), on the post-action `pressing` flag,
    the gravity multiplier, current `vy` and `threshold`. -/
def shipAccel (pressing : Bool) (gravity_mult vy threshold : ℚ) : ℚ :=
  if pressing then
    if (gravity_mult > 0 ∧ vy ≤ threshold) ∨ (gravity_mult < 0 ∧ vy ≥ threshold) then
      1397.0491 * gravity_mult
    else
      1117.6433 * gravity_mult
  else if (gravity_mult > 0 ∧ vy ≥ threshold) ∨ (gravity_mult < 0 ∧ vy ≤ threshold) then
    -1341.1719 * gravity_mult
  else
    -894.1146 * gravity_mult

/-- `physics::simulate_step`. -/
def physics.simulate_step (state : State) (action : Action) (params : PhysicsParams) : State :=
  -- apply the action to the pressing flag
  let new_state :=
    match action with
    | Action.Press => { state with pressing := true }
    | Action.Release => { state with pressing := false }
    | Action.None => state
  let gravity_mult : ℚ := if state.gravity_flipped then -1 else 1
  let effective_gravity := params.gravities state.speed * gravity_mult
  let new_state :=
    match state.mode with
    | GameMode.Cube =>
      let new_state :=
        if action = Action.Press ∧ new_state.on_ground then
          { new_state with
              vy := params.jump_velocities state.speed * gravity_mult
              on_ground := false }
        else new_state
      let vy := new_state.vy + effective_gravity * params.dt
      let vy := (rustRound (vy * params.vy_quantize_step) : ℚ) / params.vy_quantize_step
      let y := new_state.position.y + vy * params.dt * params.vertical_dt_scale
      let rotation :=
        if !new_state.on_ground then new_state.rotation - 360 * params.dt * gravity_mult
        else (rustRound (new_state.rotation / 90) : ℚ) * 90
      { new_state with
          vy := vy
          position := ⟨new_state.position.x, y⟩
          rotation := rotation }
    | GameMode.Ship =>
      let threshold := params.ship_velocities state.speed * gravity_mult
      let effective_accel := shipAccel new_state.pressing gravity_mult new_state.vy threshold
      let vy := new_state.vy + effective_accel * params.dt
      let vy := rustClamp vy (-800) 800
      let vy := (rustRound (vy * params.vy_quantize_step) : ℚ) / params.vy_quantize_step
      let y := new_state.position.y + vy * params.dt * params.vertical_dt_scale
      -- vertical bounds clamp (only when the ceiling is finite); the source
      -- computes player_top/player_bottom once and both tests use them
      let (vy, y) :=
        if new_state.ceiling < f32MAX / 2 then
          let half_height := params.player_height * (1/2)
          let player_top := y + half_height
          let player_bottom := y - half_height
          if state.gravity_flipped then
            let (vy, y) :=
              if player_bottom < new_state.floor then
                (if vy < 0 then 0 else vy, new_state.floor + half_height)
              else (vy, y)
            if player_top > new_state.ceiling then
              (if vy > 0 then 0 else vy, new_state.ceiling - half_height)
            else (vy, y)
          else
            let (vy, y) :=
              if player_top > new_state.ceiling then
                (if vy > 0 then 0 else vy, new_state.ceiling - half_height)
              else (vy, y)
            if player_bottom < new_state.floor then
              (if vy < 0 then 0 else vy, new_state.floor + half_height)
            else (vy, y)
        else (vy, y)
      let target_rotation := rustClamp (vy / 8) (-45) 45 * gravity_mult
      { new_state with
          vy := vy
          position := ⟨new_state.position.x, y⟩
          rotation := target_rotation
          on_ground := false }
  { new_state with
      position := ⟨new_state.position.x + params.player_speeds state.speed * params.dt,
                   new_state.position.y⟩ }

/-! ### state.rs: StateKey -/

/-- `(q).floor() as i32`: floor, then Rust's saturating float-to-int cast. -/
def i32floor (q : ℚ) : ℤ := castI32 ⌊q⌋

/-- `state::StateKey` — a bit-packed `u128`. -/
structure StateKey where
  val : ℕ
deriving DecidableEq, Repr

/-- `StateKey::from_state`: quantize, then bit-pack into a `u128`. -/
def StateKey.from_state (state : State) (x_quant y_quant vy_quant : ℚ) : StateKey :=
  let xi : ℤ := i32floor (state.position.x / x_quant)
  let yi : ℤ := i32floor (state.position.y / y_quant)
  let vyi : ℤ := i32floor (state.vy / vy_quant)
  let ceiling_i : ℤ :=
    if state.ceiling ≥ f32MAX / 2 then 10000 else i32floor (state.ceiling / 30)
  let mode_bit : ℕ := match state.mode with | GameMode.Cube => 0 | GameMode.Ship => 1
  let packed : ℕ :=
    toU32 xi
    ||| (toU32 yi <<< 32)
    ||| ((vyi % 16777216).toNat <<< 64)   -- `(vyi & 0xFFFFFF) as u128`, 0xFFFFFF + 1 = 2²⁴
    ||| ((ceiling_i % 65536).toNat <<< 88) -- `(ceiling_i & 0xFFFF) as u128`, 0xFFFF + 1 = 2¹⁶
    ||| ((if state.on_ground then 1 else 0) <<< 104)
    ||| ((if state.gravity_flipped then 1 else 0) <<< 105)
    ||| ((if state.pressing then 1 else 0) <<< 106)
    ||| (mode_bit <<< 107)
    ||| ((state.speed.val &&& 0x7) <<< 108)
  ⟨packed⟩

/-! ### spatial_grid.rs -/

/-- The inclusive integer range `a..=b` as a list. -/
def intRange (a b : ℤ) : List ℤ :=
  if a ≤ b then (List.range (b - a + 1).toNat).map (fun n => a + n) else []

/-- `SpatialGrid` cells: a `HashMap<(i32,i32), Vec<usize>>` as an association
    list in first-insertion key order. -/
structure SpatialGrid where
  cell_size : ℚ
  cells : List ((ℤ × ℤ) × List ℕ)
deriving DecidableEq, Repr

/-- `cells.entry((cx,cy)).or_default().push(idx)`. -/
def bucketPush : List ((ℤ × ℤ) × List ℕ) → (ℤ × ℤ) → ℕ → List ((ℤ × ℤ) × List ℕ)
  | [], k, i => [(k, [i])]
  | (k', v) :: rest, k, i =>
    if k' = k then (k', v ++ [i]) :: rest else (k', v) :: bucketPush rest k i

/-- Axis-aligned bounding box of one object, as in `SpatialGrid::new`
    (corner extents of the OBB, starting the fold from `f32::MAX`/`f32::MIN`;
    circles fall back to `width/2` around the center). -/
def objectAABB (obj : GameObject) : ℚ × ℚ × ℚ × ℚ :=
  match obj.obb with
  | some obb =>
    let step := fun (acc : ℚ × ℚ × ℚ × ℚ) (c : Vec2) =>
      (min acc.1 c.x, min acc.2.1 c.y, max acc.2.2.1 c.x, max acc.2.2.2 c.y)
    step (step (step (step (f32MAX, f32MAX, -f32MAX, -f32MAX) (obb.corners 0))
      (obb.corners 1)) (obb.corners 2)) (obb.corners 3)
  | none =>
    let radius := obj.width * (1/2)
    (obj.position.x - radius, obj.position.y - radius,
     obj.position.x + radius, obj.position.y + radius)

/-- `SpatialGrid::new`. -/
def SpatialGrid.new (objects : List GameObject) (cell_size : ℚ) : SpatialGrid :=
  let cells := (objects.enum).foldl (fun cells (p : ℕ × GameObject) =>
    let (idx, obj) := p
    let (min_x, min_y, max_x, max_y) := objectAABB obj
    let start_x := castI32 ⌊min_x / cell_size⌋
    let end_x := castI32 ⌊max_x / cell_size⌋
    let start_y := castI32 ⌊min_y / cell_size⌋
    let end_y := castI32 ⌊max_y / cell_size⌋
    (intRange start_x end_x).foldl (fun cells cx =>
      (intRange start_y end_y).foldl (fun cells cy =>
        bucketPush cells (cx, cy) idx) cells) cells) []
  ⟨cell_size, cells⟩

/-- Lookup of one cell's bucket. -/
def SpatialGrid.getCell (g : SpatialGrid) (k : ℤ × ℤ) : Option (List ℕ) :=
  (g.cells.find? (fun p => p.1 = k)).map (·.2)

/-- `SpatialGrid::query`: de-duplicated union of the buckets of all cells
    overlapping the query AABB.  The source returns a `HashSet` iterator whose
    order is unspecified; modelled as first-insertion order (no theorem
    depends on the order). -/
def SpatialGrid.query (g : SpatialGrid) (position : Vec2) (width height : ℚ) : List ℕ :=
  let half_w := width * (1/2)
  let half_h := height * (1/2)
  let start_x := castI32 ⌊(position.x - half_w) / g.cell_size⌋
  let end_x := castI32 ⌊(position.x + half_w) / g.cell_size⌋
  let start_y := castI32 ⌊(position.y - half_h) / g.cell_size⌋
  let end_y := castI32 ⌊(position.y + half_h) / g.cell_size⌋
  let collected := (intRange start_x end_x).foldl (fun acc cx =>
    (intRange start_y end_y).foldl (fun acc cy =>
      match g.getCell (cx, cy) with
      | some indices => acc ++ indices
      | none => acc) acc) []
  collected.foldl (fun uniq idx => if idx ∈ uniq then uniq else uniq ++ [idx]) []

/-! ### collision.rs -/

/-- `collision::circle_rect_intersects`. -/
def circle_rect_intersects (circle_center : Vec2) (radius : ℚ) (rect_center : Vec2)
    (rect_w rect_h : ℚ) : Bool :=
  let half_w := rect_w / 2
  let half_h := rect_h / 2
  let closest_x := rustClamp circle_center.x (rect_center.x - half_w) (rect_center.x + half_w)
  let closest_y := rustClamp circle_center.y (rect_center.y - half_h) (rect_center.y + half_h)
  let dist_sq := (circle_center.x - closest_x) ^ 2 + (circle_center.y - closest_y) ^ 2
  decide (dist_sq ≤ radius * radius)

/-- The `is_colliding` shape test of the `collides_info` loop body. -/
def isColliding (state : State) (params : PhysicsParams) (obj : GameObject) : Bool :=
  let player_obb := OBB2D.new0 state.position params.player_width params.player_height
  match obj.hitbox_shape with
  | HitboxShape.Circle =>
    let radius := obj.width / 2
    circle_rect_intersects obj.position radius state.position
      params.player_width params.player_height
  | HitboxShape.Rectangle =>
    match obj.obb with
    | some obj_obb => player_obb.overlaps obj_obb
    | none => false

/-- One iteration of the `collides_info` loop body: `some id` means the loop
    returns fatally with this object's id, `none` means it continues. -/
def objectCollision (state : State) (params : PhysicsParams) (obj : GameObject) : Option ℤ :=
  if |obj.position.x - state.position.x| > 200 then none
  else
    let is_colliding : Bool := isColliding state params obj
    if !is_colliding then none
    else
      match obj.object_type with
      | GameObjectType.Sawblade => some obj.id
      | GameObjectType.Hazard => some obj.id
      | GameObjectType.Solid =>
        let obj_top := obj.position.y + obj.height * 0.5
        let obj_bottom := obj.position.y - obj.height * 0.5
        let obj_left := obj.position.x - obj.width * 0.5
        let obj_right := obj.position.x + obj.width * 0.5
        let player_top := state.position.y + params.player_height * 0.5
        let player_bottom := state.position.y - params.player_height * 0.5
        let player_left := state.position.x - params.player_width * 0.5
        let player_right := state.position.x + params.player_width * 0.5
        if state.mode = GameMode.Ship then
          -- Ship mode: crash on side collisions, but allow grazing top/bottom
          let h_overlap := min player_right obj_right - max player_left obj_left
          let v_overlap := min player_top obj_top - max player_bottom obj_bottom
          let player_center_y := state.position.y
          let is_above_obj := player_center_y ≥ obj_top - 5
          let is_below_obj := player_center_y ≤ obj_bottom + 5
          if (is_above_obj ∨ is_below_obj) ∧ v_overlap < 15 ∧ h_overlap > 5 then none
          else some obj.id
        else
          -- Cube mode: surface-zone logic
          let (player_feet, surface_level) :=
            if state.gravity_flipped then (player_top, obj_bottom)
            else (player_bottom, obj_top)
          let is_in_surface_zone :=
            if state.gravity_flipped then
              player_feet ≤ surface_level + 5 ∧ player_feet ≥ surface_level - 5
            else
              player_feet ≥ surface_level - 5 ∧ player_feet ≤ surface_level + 5
          if is_in_surface_zone then none else some obj.id
      | _ => none

/-- `collision::collides_info`: first fatal id over the grid's candidate
    indices (grid indices are in range by construction; an out-of-range index
    would panic in the source and is skipped here). -/
def collides_info (state : State) (objects : List GameObject) (grid : SpatialGrid)
    (params : PhysicsParams) : Option ℤ :=
  (grid.query state.position (params.player_width + 400) (params.player_height + 400)).findSome?
    (fun obj_idx => (objects.get? obj_idx).bind (objectCollision state params))

/-! ### pathfinder/mod.rs + pathfinder/builder.rs -/

/-- `pathfinder::Pathfinder`. -/
structure Pathfinder where
  objects : List GameObject
  config : Config
  max_obj_width : ℚ
  grid : SpatialGrid

/-- The builder's stable sort by `obj.position.x - obj.width/2` ascending
    (Rust `sort_by` is a stable merge sort). -/
def sortObjects (objects : List GameObject) : List GameObject :=
  objects.mergeSort (fun a b =>
    decide (a.position.x - a.width * 0.5 ≤ b.position.x - b.width * 0.5))

/-- `for obj in &objects { if obj.width > max_obj_width { … } }` starting
    from `0.0f32`. -/
def maxObjWidth (objects : List GameObject) : ℚ :=
  objects.foldl (fun m obj => if obj.width > m then obj.width else m) 0

/-- `Pathfinder::new` (the `goal_x` argument is unused in the source:
    `_goal_x`). -/
def Pathfinder.new (objects : List GameObject) (_goal_x : ℚ) : Pathfinder :=
  let config := Config.default
  let objects := sortObjects objects
  let max_obj_width := maxObjWidth objects + 10
  let grid := SpatialGrid.new objects 128
  ⟨objects, config, max_obj_width, grid⟩

/-- `Pathfinder::with_config`. -/
def Pathfinder.with_config (objects : List GameObject) (config : Config) : Pathfinder :=
  let objects := sortObjects objects
  let max_obj_width := maxObjWidth objects + 10
  let grid := SpatialGrid.new objects 128
  ⟨objects, config, max_obj_width, grid⟩

/-! ### pathfinder/sim.rs -/

/-- The four landing conditions of `apply_landing_logic` for one candidate
    solid object (evaluated after the OBB overlap test), exactly as in the
    source's gravity-split `let`-tuple plus `sufficient_h_overlap`. -/
def landingConditions (params : PhysicsParams) (prev_player_bottom player_bottom : ℚ)
    (next_state : State) (obj : GameObject) : Bool :=
  let obj_top := obj.position.y + obj.height * 0.5
  let obj_bottom := obj.position.y - obj.height * 0.5
  let obj_left := obj.position.x - obj.width * 0.5
  let obj_right := obj.position.x + obj.width * 0.5
  let player_left := next_state.position.x - params.player_width * 0.5
  let player_right := next_state.position.x + params.player_width * 0.5
  let h_overlap := max (min player_right obj_right - max player_left obj_left) 0
  let min_width := min params.player_width obj.width
  let sufficient_h_overlap := h_overlap ≥ min_width * 0.5
  let (coming_from_correct_side, falling_towards_surface, landing_on_surface) :=
    if next_state.gravity_flipped then
      (decide (prev_player_bottom ≤ obj_bottom + 2),
       decide (next_state.vy ≥ 0),
       decide (player_bottom ≥ obj_bottom - 5 ∧ player_bottom ≤ obj_top))
    else
      (decide (prev_player_bottom ≥ obj_top - 2),
       decide (next_state.vy ≤ 0),
       decide (player_bottom ≤ obj_top + 5 ∧ player_bottom ≥ obj_bottom))
  coming_from_correct_side && falling_towards_surface && landing_on_surface
    && decide sufficient_h_overlap

/-- The snap applied when all landing conditions hold. -/
def snapToSurface (params : PhysicsParams) (next_state : State) (obj : GameObject) : State :=
  let obj_top := obj.position.y + obj.height * 0.5
  let obj_bottom := obj.position.y - obj.height * 0.5
  let y :=
    if next_state.gravity_flipped then obj_bottom - params.player_height * 0.5 - 0.001
    else obj_top + params.player_height * 0.5 + 0.001
  { next_state with
      position := ⟨next_state.position.x, y⟩
      vy := 0
      on_ground := true
      rotation := 0 }

/-- The candidate loop of `apply_landing_logic` (with its `break` on
    `obj_min_x > new_max_x` and on a successful landing): returns the snapped
    state if some object is landed on. -/
def landingScan (params : PhysicsParams) (prev_player_bottom player_bottom new_max_x : ℚ)
    (next_state : State) : List GameObject → Option State
  | [] => none
  | obj :: rest =>
    if obj.position.x - obj.width * 0.5 > new_max_x then none
    else if obj.object_type ≠ GameObjectType.Solid then
      landingScan params prev_player_bottom player_bottom new_max_x next_state rest
    else if |obj.position.x - next_state.position.x| > 200 then
      landingScan params prev_player_bottom player_bottom new_max_x next_state rest
    else
      match obj.obb with
      | none => landingScan params prev_player_bottom player_bottom new_max_x next_state rest
      | some obj_obb =>
        let player_obb :=
          OBB2D.new0 next_state.position params.player_width params.player_height
        if player_obb.overlaps obj_obb then
          if landingConditions params prev_player_bottom player_bottom next_state obj then
            some (snapToSurface params next_state obj)
          else landingScan params prev_player_bottom player_bottom new_max_x next_state rest
        else landingScan params prev_player_bottom player_bottom new_max_x next_state rest

/-- `Pathfinder::apply_landing_logic`.  The source's `partition_point` jump
    over the x-sorted object list is modelled by `dropWhile` (they agree on a
    list partitioned by the predicate, which the sorted order guarantees). -/
def Pathfinder.apply_landing_logic (pf : Pathfinder) (prev_state : State)
    (next_state0 : State) : State :=
  let params := pf.config.physics
  let next_state := { next_state0 with on_ground := false }
  let prev_player_bottom :=
    if prev_state.gravity_flipped then prev_state.position.y + params.player_height * 0.5
    else prev_state.position.y - params.player_height * 0.5
  let player_bottom :=
    if next_state.gravity_flipped then next_state.position.y + params.player_height * 0.5
    else next_state.position.y - params.player_height * 0.5
  let new_min_x := next_state.position.x - params.player_width * 0.5
  let new_max_x := next_state.position.x + params.player_width * 0.5
  let search_start_x := new_min_x - pf.max_obj_width
  let candidates :=
    pf.objects.dropWhile (fun obj => decide (obj.position.x - obj.width * 0.5 < search_start_x))
  match landingScan params prev_player_bottom player_bottom new_max_x next_state candidates with
  | some landed_state => landed_state
  | none =>
    -- world floor
    if ¬next_state.gravity_flipped ∧ next_state.position.y < params.player_height * 0.5 then
      { next_state with
          position := ⟨next_state.position.x, params.player_height * 0.5⟩
          vy := 0
          on_ground := true
          rotation := 0 }
    else next_state

/-- One portal's effect on the state (the match arms of
    `check_portal_collisions`). -/
def portalEffect (params : PhysicsParams) (state : State) (obj : GameObject) : State :=
  match obj.object_type with
  | GameObjectType.ShipPortal =>
    let portal_y := obj.position.y
    let half_bounds := params.ship_bounds / 2
    let floor := max (30 * (⌈(portal_y - (half_bounds + 30)) / 30⌉ : ℚ)) 0
    { state with
        mode := GameMode.Ship
        on_ground := false
        floor := floor
        ceiling := floor + params.ship_bounds }
  | GameObjectType.CubePortal =>
    { state with mode := GameMode.Cube, floor := 0, ceiling := f32MAX }
  | GameObjectType.InverseGravityPortal =>
    if !state.gravity_flipped then { state with gravity_flipped := true } else state
  | GameObjectType.NormalGravityPortal =>
    if state.gravity_flipped then { state with gravity_flipped := false } else state
  | _ => state

/-- The portal loop (with its `break` on `obj_min_x > player_max_x`); the
    player OBB is built from the state's position once, before the loop. -/
def portalScan (params : PhysicsParams) (player_obb : OBB2D) (player_max_x : ℚ) :
    State → List GameObject → State
  | state, [] => state
  | state, obj :: rest =>
    if obj.position.x - obj.width * 0.5 > player_max_x then state
    else
      let state :=
        match obj.obb with
        | some obj_obb =>
          if player_obb.overlaps obj_obb then portalEffect params state obj else state
        | none => state
      portalScan params player_obb player_max_x state rest

/-- `Pathfinder::check_portal_collisions`. -/
def Pathfinder.check_portal_collisions (pf : Pathfinder) (state : State) : State :=
  let params := pf.config.physics
  let player_obb := OBB2D.new0 state.position params.player_width params.player_height
  let player_min_x := state.position.x - params.player_width * 0.5
  let player_max_x := state.position.x + params.player_width * 0.5
  let search_start_x := player_min_x - pf.max_obj_width
  let candidates :=
    pf.objects.dropWhile (fun obj => decide (obj.position.x - obj.width * 0.5 < search_start_x))
  portalScan params player_obb player_max_x state candidates

/-- `Pathfinder::simulate_step` (the wrapper: physics, then Cube landing,
    then portals). -/
def Pathfinder.simulate_step (pf : Pathfinder) (state : State) (action : Action) : State :=
  let next_state := physics.simulate_step state action pf.config.physics
  let next_state :=
    if next_state.mode = GameMode.Cube then pf.apply_landing_logic state next_state
    else next_state
  pf.check_portal_collisions next_state

/-! ### state.rs: Node; pathfinder/search.rs -/

/-- `state::Node`. -/
structure Node where
  g : ℚ
  f : ℚ
  state : State
  parent_index : Option ℕ
  action : Option Action
deriving DecidableEq, Repr

/-- `pathfinder::search::NodeIndexWrapper`. -/
structure NodeIndexWrapper where
  f : ℚ
  index : ℕ
  x : ℚ
deriving DecidableEq, Repr

/-- Total comparison on `ℚ` (Rust `partial_cmp` never returns `None` here:
    `ℚ` has no NaN). -/
def qcompare (a b : ℚ) : Ordering :=
  if a < b then .lt else if a > b then .gt else .eq

/-- Total comparison on `ℕ` (`usize::cmp`). -/
def ncompare (a b : ℕ) : Ordering :=
  if a < b then .lt else if a > b then .gt else .eq

/-- `NodeIndexWrapper::cmp`: reversed on `f` (max-heap serving min-f), then
    by `x`, then by insertion index. -/
def NodeIndexWrapper.cmp (self other : NodeIndexWrapper) : Ordering :=
  match qcompare other.f self.f with
  | .eq =>
    match qcompare self.x other.x with
    | .eq => ncompare self.index other.index
    | ord => ord
  | ord => ord

/-- `pathfinder::search::SearchSession`.  The `BinaryHeap` is modelled by the
    list of its elements (pops take the `cmp`-greatest element, which is
    unique because insertion indices are distinct); the `HashMap` by an
    association list. -/
structure SearchSession where
  open_set : List NodeIndexWrapper
  closed_set : List (StateKey × ℚ)
  all_nodes : List Node
  nodes_expanded : ℕ
  goal_reached_index : Option ℕ
  best_x_index : ℕ
  best_x : ℚ
  checkpoint_best_x : ℚ
  checkpoint_nodes : ℕ

/-- `SearchSession::new`. -/
def SearchSession.new (start_node : Node) (start_pos_x : ℚ) : SearchSession where
  open_set := [⟨start_node.f, 0, start_node.state.position.x⟩]
  closed_set := []
  all_nodes := [start_node]
  nodes_expanded := 0
  goal_reached_index := none
  best_x_index := 0
  best_x := start_pos_x
  checkpoint_best_x := start_pos_x
  checkpoint_nodes := 0

/-- `BinaryHeap::pop`: remove and return the greatest element. -/
def heapPop (l : List NodeIndexWrapper) : Option (NodeIndexWrapper × List NodeIndexWrapper) :=
  match l with
  | [] => none
  | a :: rest =>
    let m := rest.foldl (fun best w => if w.cmp best = .gt then w else best) a
    some (m, l.erase m)

/-- `HashMap::get` on the association-list model. -/
def mapGet (m : List (StateKey × ℚ)) (k : StateKey) : Option ℚ :=
  (m.find? (fun p => p.1 = k)).map (·.2)

/-- `HashMap::insert` on the association-list model (replaces an existing
    binding). -/
def mapInsert : List (StateKey × ℚ) → StateKey → ℚ → List (StateKey × ℚ)
  | [], k, v => [(k, v)]
  | (k', v') :: rest, k, v =>
    if k' = k then (k, v) :: rest else (k', v') :: mapInsert rest k v

/-- `pathfinder::search::heuristic`. -/
def heuristic (state : State) (goal_x : ℚ) (player_speeds : Fin 5 → ℚ)
    (heuristic_weight : ℚ) : ℚ :=
  let dist := max (goal_x - state.position.x) 0
  let time_to_goal := dist / player_speeds state.speed
  let penalty : ℚ :=
    if state.mode = GameMode.Ship ∧ state.ceiling < f32MAX / 2 then
      let center_y := (state.floor + state.ceiling) / 2
      let vertical_offset := |state.position.y - center_y|
      (vertical_offset / 150) * 0.5
    else 0
  (time_to_goal + penalty) * heuristic_weight

/-! ### pathfinder/solver.rs -/

/-- `Pathfinder::start_search`. -/
def Pathfinder.start_search (pf : Pathfinder) (start_pos : Vec2) (goal_x : ℚ) :
    SearchSession :=
  let start_state : State :=
    { position := start_pos
      vy := 0
      on_ground := true
      rotation := 0
      mode := GameMode.Cube
      gravity_flipped := false
      floor := 0
      ceiling := f32MAX
      pressing := false
      speed := 1 }
  let start_node : Node :=
    { g := 0
      f := heuristic start_state goal_x pf.config.physics.player_speeds
             pf.config.search.heuristic_weight
      state := start_state
      parent_index := none
      action := none }
  SearchSession.new start_node start_pos.x

/-- The candidate-action selection of `step_single`. -/
def actionsToTry (state : State) : List Action :=
  if state.pressing then [Action.None, Action.Release]
  else
    match state.mode with
    | GameMode.Cube =>
      if state.on_ground then [Action.None, Action.Press] else [Action.None]
    | GameMode.Ship => [Action.None, Action.Press]

/-- One iteration of the expansion loop of `step_single`: simulate the
    action, discard on fall-out or collision, else append the child node and
    push its open-set entry. -/
def expandAction (pf : Pathfinder) (goal_x : ℚ) (current_idx : ℕ) (current_node : Node)
    (sess : SearchSession) (action : Action) : SearchSession :=
  let next_state := pf.simulate_step current_node.state action
  if next_state.position.y < -100 then sess
  else if (collides_info next_state pf.objects pf.grid pf.config.physics).isSome then sess
  else
    let new_g := current_node.g + pf.config.physics.dt
    let new_g :=
      if action = Action.Press then
        if current_node.state.mode = GameMode.Cube then new_g + 15 * pf.config.physics.dt
        else new_g + 0.5 * pf.config.physics.dt
      else new_g
    let new_f := new_g + heuristic next_state goal_x pf.config.physics.player_speeds
                   pf.config.search.heuristic_weight
    let next_node : Node :=
      { g := new_g
        f := new_f
        state := next_state
        parent_index := some current_idx
        action := some action }
    let next_idx := sess.all_nodes.length
    { sess with
        all_nodes := sess.all_nodes ++ [next_node]
        open_set := sess.open_set ++ [⟨new_f, next_idx, next_state.position.x⟩] }

/-- The pop-and-expand phase of `step_single` (the `if let Some(wrapper) =
    session.open_set.pop()` block).  Arena indexing `all_nodes[current_idx]`
    would panic out of range in the source; open-set indices always point
    into the arena, and the out-of-range arm here returns unchanged. -/
def expandPhase (pf : Pathfinder) (session : SearchSession) (goal_x : ℚ) :
    Bool × SearchSession :=
  match heapPop session.open_set with
  | none => (false, session)
  | some (wrapper, rest) =>
    let session := { session with open_set := rest }
    let current_idx := wrapper.index
    match session.all_nodes.get? current_idx with
    | none => (false, session)
    | some current_node =>
      let session := { session with nodes_expanded := session.nodes_expanded + 1 }
      let session :=
        if current_node.state.position.x > session.best_x then
          { session with
              best_x := current_node.state.position.x
              best_x_index := current_idx }
        else session
      if current_node.state.position.x ≥ goal_x then
        (true, { session with goal_reached_index := some current_idx })
      else
        let key := StateKey.from_state current_node.state pf.config.search.x_quant
                     pf.config.search.y_quant pf.config.search.vy_quant
        let prune :=
          match mapGet session.closed_set key with
          | some best_g => decide (current_node.g > best_g + pf.config.physics.dt * 0.5)
          | none => false
        if prune then (false, session)
        else
          let session :=
            { session with closed_set := mapInsert session.closed_set key current_node.g }
          let session :=
            (actionsToTry current_node.state).foldl
              (expandAction pf goal_x current_idx current_node) session
          (false, session)

/-- `Pathfinder::step_single`: returns the `bool` result and the mutated
    session. -/
def Pathfinder.step_single (pf : Pathfinder) (session : SearchSession) (goal_x : ℚ) :
    Bool × SearchSession :=
  if session.goal_reached_index.isSome ∨ session.open_set = [] then (true, session)
  else if session.nodes_expanded ≥
      session.checkpoint_nodes + pf.config.search.stagnation_check_interval then
    let progress := session.best_x - session.checkpoint_best_x
    if progress < pf.config.search.min_progress_per_interval then
      (true, { session with goal_reached_index := some session.best_x_index })
    else
      expandPhase pf
        { session with
            checkpoint_best_x := session.best_x
            checkpoint_nodes := session.nodes_expanded }
        goal_x
  else
    expandPhase pf session goal_x

/-- Driver iterating `step_single` a bounded number of times (the source's
    `step` loops to termination; claims below only need finite prefixes). -/
def stepIter (pf : Pathfinder) (goal_x : ℚ) : ℕ → SearchSession → SearchSession
  | 0, session => session
  | n + 1, session => stepIter pf goal_x n (pf.step_single session goal_x).2

/-! ## Concrete fixtures used by counterexamples and witnesses -/

/-- A standard 30×30 solid block centered at (0, 15) (top surface at y = 30),
    with its axis-aligned precomputed OBB. -/
def cBlock : GameObject :=
  { id := 1, object_type := GameObjectType.Solid, position := ⟨0, 15⟩, rotation := 0,
    scale := ⟨1, 1⟩, flip_x := false, flip_y := false,
    hitbox_shape := HitboxShape.Rectangle,
    width := 30, height := 30, obb := some (OBB2D.new0 ⟨0, 15⟩ 30 30) }

/-- Pathfinder over the single block. -/
def cPathfinder : Pathfinder := Pathfinder.new [cBlock] 100

/-- A falling Cube state one tick before touching `cBlock`
    (player-bottom at 31). -/
def cPrev : State :=
  { position := ⟨0, 46⟩, vy := -5, on_ground := false, rotation := 0,
    mode := GameMode.Cube, gravity_flipped := false, floor := 0, ceiling := f32MAX,
    pressing := false, speed := 1 }

/-- A next state whose player-bottom (20) is 10 units below the block's top
    surface — outside the spec's ±5 landing band. -/
def cNextDeep : State := { cPrev with position := ⟨0, 35⟩ }

/-- A next state whose player-bottom (29) is within ±5 of the block's top. -/
def cNextBand : State := { cPrev with position := ⟨0, 44⟩, vy := -2 }

/-- A 30×30 solid block centered at the origin. -/
def cShipSolid : GameObject :=
  { cBlock with id := 7, position := ⟨0, 0⟩, obb := some (OBB2D.new0 ⟨0, 0⟩ 30 30) }

/-- A Ship state overlapping `cShipSolid` with center-y 10 above the block's
    top surface (grazing: vertical overlap 5, horizontal overlap 30). -/
def cShipState : State :=
  { position := ⟨0, 25⟩, vy := 0, on_ground := false, rotation := 0,
    mode := GameMode.Ship, gravity_flipped := false, floor := 0, ceiling := 300,
    pressing := false, speed := 1 }

/-- A Ship state with no vertical bounds, falling at vy = −200, not
    pressing. -/
def cShipFall : State :=
  { position := ⟨0, 100⟩, vy := -200, on_ground := false, rotation := 0,
    mode := GameMode.Ship, gravity_flipped := false, floor := 0, ceiling := f32MAX,
    pressing := false, speed := 0 }

/-- A node for the stagnation fixture. -/
def cStagNode : Node :=
  { g := 0, f := 0,
    state := { position := ⟨10, 15⟩, vy := 0, on_ground := true, rotation := 0,
               mode := GameMode.Cube, gravity_flipped := false, floor := 0,
               ceiling := f32MAX, pressing := false, speed := 1 },
    parent_index := none, action := none }

/-- A session that has just reached the stagnation checkpoint with only 10
    units of progress (below the default threshold 15). -/
def cStagSess : SearchSession :=
  { open_set := [⟨0, 0, 0⟩], closed_set := [], all_nodes := [cStagNode],
    nodes_expanded := 50000000, goal_reached_index := none, best_x_index := 0,
    best_x := 10, checkpoint_best_x := 0, checkpoint_nodes := 0 }

/-- A state at x = 0.9 (quantization bucket 0 for `x_quant = 1`). -/
def cKeyA : State :=
  { position := ⟨0.9, 15⟩, vy := 0, on_ground := true, rotation := 0,
    mode := GameMode.Cube, gravity_flipped := false, floor := 0, ceiling := f32MAX,
    pressing := false, speed := 1 }

/-- The same state at x = 1.05: within 0.15 < `x_quant` of `cKeyA` but in
    quantization bucket 1. -/
def cKeyB : State := { cKeyA with position := ⟨1.05, 15⟩ }

/-! ## Spec-side definitions (formalizing the claims' wording, for
    comparison against the source-derived definitions above) -/

/-- The C3 claim's predicate, following the spec's words: "`vy` is past the
    threshold `T` in the downward (gm-aligned) sense" — moving down means
    decreasing `vy` when `gm = +1` and increasing `vy` when `gm = −1`, so
    "past `T` downward" is `vy ≤ T` for `gm > 0` and `vy ≥ T` for `gm < 0`. -/
def specPastThresholdDownward (gm vy threshold : ℚ) : Prop :=
  if gm > 0 then vy ≤ threshold else vy ≥ threshold

/-- The C4 claim's survivability condition, following the spec's words:
    vertical overlap < 15, horizontal overlap > 5, and the player's center-y
    **within 5** of the object's top or bottom. -/
def specShipGrazeSurvivable (state : State) (params : PhysicsParams)
    (obj : GameObject) : Prop :=
  min (state.position.y + params.player_height * 0.5) (obj.position.y + obj.height * 0.5)
      - max (state.position.y - params.player_height * 0.5)
          (obj.position.y - obj.height * 0.5) < 15
  ∧ min (state.position.x + params.player_width * 0.5) (obj.position.x + obj.width * 0.5)
      - max (state.position.x - params.player_width * 0.5)
          (obj.position.x - obj.width * 0.5) > 5
  ∧ (|state.position.y - (obj.position.y + obj.height * 0.5)| ≤ 5
      ∨ |state.position.y - (obj.position.y - obj.height * 0.5)| ≤ 5)

/-! ## Decomposition views of the packed state key (proof abbreviations) -/

/-- The low 104 bits of a packed `StateKey` (x, y, vy and ceiling fields), as
    a plain sum. -/
def keyLow (s : State) (x_quant y_quant vy_quant : ℚ) : ℕ :=
  toU32 (i32floor (s.position.x / x_quant))
    + toU32 (i32floor (s.position.y / y_quant)) * 2 ^ 32
    + ((i32floor (s.vy / vy_quant)) % 16777216).toNat * 2 ^ 64
    + (((if s.ceiling ≥ f32MAX / 2 then (10000 : ℤ) else i32floor (s.ceiling / 30))
        % 65536).toNat) * 2 ^ 88

/-- The flag/mode/speed bits of a packed `StateKey` (bit offsets 104…110),
    shifted down to a small number. -/
def keyHigh (s : State) : ℕ :=
  (if s.on_ground then 1 else 0)
    + 2 * (if s.gravity_flipped then 1 else 0)
    + 4 * (if s.pressing then 1 else 0)
    + 8 * (match s.mode with | GameMode.Cube => 0 | GameMode.Ship => 1)
    + 16 * (s.speed.val &&& 7)

/-! ## Invariant predicates for the search session (C9) -/

/-- Configuration validity for the invariant claims (satisfied by the
    defaults): nonnegative tick, heuristic weight and player speeds. -/
def validConfig (c : Config) : Prop :=
  0 ≤ c.physics.dt ∧ 0 ≤ c.search.heuristic_weight
    ∧ ∀ i : Fin 5, 0 ≤ c.physics.player_speeds i

/-- The claim's per-node arena invariant: `g ≥ 0`, `f ≥ g`, and parent links
    point strictly downward. -/
def nodeInv (s : SearchSession) : Prop :=
  ∀ (i : ℕ) (hi : i < s.all_nodes.length),
    0 ≤ s.all_nodes[i].g ∧ s.all_nodes[i].g ≤ s.all_nodes[i].f
      ∧ ∀ p, s.all_nodes[i].parent_index = some p → p < i

/-- The session invariant carried through the induction: the node invariant
    plus in-range open-set indices. -/
def sessionInv (s : SearchSession) : Prop :=
  nodeInv s ∧ ∀ w ∈ s.open_set, w.index < s.all_nodes.length

/-! ## Claims -/

/-! ### Helper lemmas for the state-key decomposition -/

/-- Bitwise-or with a disjoint shifted field is addition. -/
theorem orShiftEq {lo hi n : ℕ} (h : lo < 2 ^ n) : lo ||| hi <<< n = lo + hi * 2 ^ n := by
  rw [Nat.shiftLeft_eq, Nat.lor_comm, Nat.mul_comm hi, Nat.add_comm]
  exact (Nat.mul_add_lt_is_or h hi).symm

/-- Bound for the accumulated packed prefix. -/
theorem addShiftLt {lo hi n w m : ℕ} (h1 : lo < 2 ^ n) (h2 : hi < 2 ^ w)
    (hm : n + w = m) : lo + hi * 2 ^ n < 2 ^ m := by
  subst hm
  calc lo + hi * 2 ^ n < 2 ^ n + hi * 2 ^ n := by omega
    _ = (hi + 1) * 2 ^ n := by ring
    _ ≤ 2 ^ w * 2 ^ n := Nat.mul_le_mul_right _ (by omega)
    _ = 2 ^ (n + w) := by rw [← pow_add, Nat.add_comm]

/-- `toU32` lands strictly below `2³²`. -/
theorem toU32_lt (z : ℤ) : toU32 z < 2 ^ 32 := by
  unfold toU32
  have h1 := Int.emod_nonneg z (by norm_num : (4294967296 : ℤ) ≠ 0)
  have h2 := Int.emod_lt_of_pos z (by norm_num : (0 : ℤ) < 4294967296)
  omega

/-- The masked `vy` field lands strictly below `2²⁴`. -/
theorem vyMask_lt (z : ℤ) : (z % 16777216).toNat < 2 ^ 24 := by
  have h1 := Int.emod_nonneg z (by norm_num : (16777216 : ℤ) ≠ 0)
  have h2 := Int.emod_lt_of_pos z (by norm_num : (0 : ℤ) < 16777216)
  omega

/-- The masked ceiling field lands strictly below `2¹⁶`. -/
theorem ceilMask_lt (z : ℤ) : (z % 65536).toNat < 2 ^ 16 := by
  have h1 := Int.emod_nonneg z (by norm_num : (65536 : ℤ) ≠ 0)
  have h2 := Int.emod_lt_of_pos z (by norm_num : (0 : ℤ) < 65536)
  omega

/-- The packed key splits into its low 104 bits plus the high flag bits. -/
theorem from_state_val (s : State) (xq yq vq : ℚ) :
    (StateKey.from_state s xq yq vq).val = keyLow s xq yq vq + keyHigh s * 2 ^ 104 := by
  have hxu := toU32_lt (i32floor (s.position.x / xq))
  have hyu := toU32_lt (i32floor (s.position.y / yq))
  have hvu := vyMask_lt (i32floor (s.vy / vq))
  have hcu := ceilMask_lt
    (if s.ceiling ≥ f32MAX / 2 then (10000 : ℤ) else i32floor (s.ceiling / 30))
  have hog : (if s.on_ground then (1 : ℕ) else 0) < 2 ^ 1 := by
    cases s.on_ground <;> norm_num
  have hgf : (if s.gravity_flipped then (1 : ℕ) else 0) < 2 ^ 1 := by
    cases s.gravity_flipped <;> norm_num
  have hpr : (if s.pressing then (1 : ℕ) else 0) < 2 ^ 1 := by
    cases s.pressing <;> norm_num
  have hmb : (match s.mode with | GameMode.Cube => (0 : ℕ) | GameMode.Ship => 1) < 2 ^ 1 := by
    cases s.mode <;> norm_num
  have hsp : s.speed.val &&& 7 < 2 ^ 3 :=
    Nat.lt_of_le_of_lt Nat.and_le_right (by norm_num)
  simp only [StateKey.from_state, keyLow, keyHigh]
  rw [orShiftEq hxu]
  have h2 := addShiftLt hxu hyu (by norm_num : 32 + 32 = 64)
  rw [orShiftEq h2]
  have h3 := addShiftLt h2 hvu (by norm_num : 64 + 24 = 88)
  rw [orShiftEq h3]
  have h4 := addShiftLt h3 hcu (by norm_num : 88 + 16 = 104)
  rw [orShiftEq h4]
  have h5 := addShiftLt h4 hog (by norm_num : 104 + 1 = 105)
  rw [orShiftEq h5]
  have h6 := addShiftLt h5 hgf (by norm_num : 105 + 1 = 106)
  rw [orShiftEq h6]
  have h7 := addShiftLt h6 hpr (by norm_num : 106 + 1 = 107)
  rw [orShiftEq h7]
  have h8 := addShiftLt h7 hmb (by norm_num : 107 + 1 = 108)
  rw [orShiftEq h8]
  ring

/-- The low part is bounded by `2¹⁰⁴`. -/
theorem keyLow_lt (s : State) (xq yq vq : ℚ) : keyLow s xq yq vq < 2 ^ 104 := by
  have hxu := toU32_lt (i32floor (s.position.x / xq))
  have hyu := toU32_lt (i32floor (s.position.y / yq))
  have hvu := vyMask_lt (i32floor (s.vy / vq))
  have hcu := ceilMask_lt
    (if s.ceiling ≥ f32MAX / 2 then (10000 : ℤ) else i32floor (s.ceiling / 30))
  have h2 := addShiftLt hxu hyu (by norm_num : 32 + 32 = 64)
  have h3 := addShiftLt h2 hvu (by norm_num : 64 + 24 = 88)
  have h4 := addShiftLt h3 hcu (by norm_num : 88 + 16 = 104)
  simpa only [keyLow] using h4

/-- Unique binary-digit style decomposition of the high bits. -/
theorem digits_inj {a1 b1 c1 d1 e1 a2 b2 c2 d2 e2 : ℕ}
    (ha1 : a1 ≤ 1) (hb1 : b1 ≤ 1) (hc1 : c1 ≤ 1) (hd1 : d1 ≤ 1) (he1 : e1 ≤ 7)
    (ha2 : a2 ≤ 1) (hb2 : b2 ≤ 1) (hc2 : c2 ≤ 1) (hd2 : d2 ≤ 1) (he2 : e2 ≤ 7)
    (h : a1 + 2 * b1 + 4 * c1 + 8 * d1 + 16 * e1
        = a2 + 2 * b2 + 4 * c2 + 8 * d2 + 16 * e2) :
    a1 = a2 ∧ b1 = b2 ∧ c1 = c2 ∧ d1 = d2 ∧ e1 = e2 := by omega

/-- Equal high parts force equal flags, mode and speed. -/
theorem keyHigh_inj (s1 s2 : State) (h : keyHigh s1 = keyHigh s2) :
    s1.on_ground = s2.on_ground ∧ s1.gravity_flipped = s2.gravity_flipped
      ∧ s1.pressing = s2.pressing ∧ s1.mode = s2.mode ∧ s1.speed = s2.speed := by
  have hs1 : s1.speed.val &&& 7 = s1.speed.val := by
    rw [show (7 : ℕ) = 2 ^ 3 - 1 by norm_num]
    exact Nat.and_pow_two_sub_one_of_lt_two_pow (by omega)
  have hs2 : s2.speed.val &&& 7 = s2.speed.val := by
    rw [show (7 : ℕ) = 2 ^ 3 - 1 by norm_num]
    exact Nat.and_pow_two_sub_one_of_lt_two_pow (by omega)
  simp only [keyHigh, hs1, hs2] at h
  have hb1 := s1.speed.isLt
  have hb2 := s2.speed.isLt
  have hd := digits_inj
    (by cases s1.on_ground <;> norm_num)
    (by cases s1.gravity_flipped <;> norm_num)
    (by cases s1.pressing <;> norm_num)
    (by cases s1.mode <;> norm_num)
    (by omega)
    (by cases s2.on_ground <;> norm_num)
    (by cases s2.gravity_flipped <;> norm_num)
    (by cases s2.pressing <;> norm_num)
    (by cases s2.mode <;> norm_num)
    (by omega)
    h
  obtain ⟨h1, h2, h3, h4, h5⟩ := hd
  refine ⟨?_, ?_, ?_, ?_, Fin.ext h5⟩
  · cases hx : s1.on_ground <;> cases hy : s2.on_ground <;> simp_all
  · cases hx : s1.gravity_flipped <;> cases hy : s2.gravity_flipped <;> simp_all
  · cases hx : s1.pressing <;> cases hy : s2.pressing <;> simp_all
  · cases hx : s1.mode <;> cases hy : s2.mode <;> simp_all

/-! ### C6 — state-key separation -/

/-- C6: states differing in `mode`, `gravity_flipped`, `on_ground`,
    `pressing` or `speed` (speed tiers live in {0,…,4}) always produce
    different `StateKey`s, for any quantization parameters and any values of
    the remaining fields. -/
theorem C6_key_separation (s1 s2 : State) (xq yq vq : ℚ)
    (hdiff : s1.mode ≠ s2.mode ∨ s1.gravity_flipped ≠ s2.gravity_flipped
      ∨ s1.on_ground ≠ s2.on_ground ∨ s1.pressing ≠ s2.pressing
      ∨ s1.speed ≠ s2.speed) :
    StateKey.from_state s1 xq yq vq ≠ StateKey.from_state s2 xq yq vq := by
  intro heq
  have hv : (StateKey.from_state s1 xq yq vq).val = (StateKey.from_state s2 xq yq vq).val :=
    congrArg StateKey.val heq
  rw [from_state_val, from_state_val] at hv
  have hl1 := keyLow_lt s1 xq yq vq
  have hl2 := keyLow_lt s2 xq yq vq
  have hhigh : keyHigh s1 = keyHigh s2 := by omega
  obtain ⟨hog, hgf, hpr, hm, hsp⟩ := keyHigh_inj s1 s2 hhigh
  rcases hdiff with h | h | h | h | h <;> exact h (by assumption)

/-- C6 witness: two states differing only in mode get different keys. -/
theorem C6_witness :
    StateKey.from_state cKeyA 1 1 10 ≠
      StateKey.from_state { cKeyA with mode := GameMode.Ship } 1 1 10 :=
  C6_key_separation _ _ 1 1 10 (Or.inl (by simp [cKeyA]))

/-! ### C1 — initial search state -/

/-- C1 (counterexample): the initial session's single node carries speed
    tier 1 — not tier 0 as the claim states. -/
theorem C1_counterexample :
    ((Pathfinder.new [] 100).start_search ⟨0, 15⟩ 100).all_nodes.map
        (fun n => n.state.speed) = [1]
      ∧ ([1] : List (Fin 5)) ≠ [0] := by
  exact ⟨rfl, by decide⟩

/-- C1 (amended): `start_search(start_pos, goal_x)` seeds the session with a
    single node holding a Cube-mode state at `start_pos` with `vy = 0`,
    `on_ground = true`, `pressing = false`, gravity not flipped, and speed
    tier **1**. -/
theorem C1_start_search_initial_node (pf : Pathfinder) (start_pos : Vec2) (goal_x : ℚ) :
    (pf.start_search start_pos goal_x).all_nodes.map (fun n => n.state) =
      [{ position := start_pos, vy := 0, on_ground := true, rotation := 0,
         mode := GameMode.Cube, gravity_flipped := false, floor := 0,
         ceiling := f32MAX, pressing := false, speed := 1 }] := rfl

/-! ### C2 — Cube landing zone -/

set_option maxHeartbeats 4000000 in
/-- C2 (counterexample): landing on `cBlock` (top surface 30) from
    `cNextDeep` — whose player-bottom 20 is *below* `surface − 5 = 25` —
    still triggers the snap (`on_ground = true`, `y` snapped to `45.001`),
    because the source accepts any bottom in `[obj_bottom, obj_top + 5]`. -/
theorem C2_counterexample :
    (cPathfinder.apply_landing_logic cPrev cNextDeep).on_ground = true
      ∧ (cPathfinder.apply_landing_logic cPrev cNextDeep).position.y = 45.001
      ∧ cNextDeep.position.y - PhysicsParams.default.player_height * 0.5
          < (cBlock.position.y + cBlock.height * 0.5) - 5 := by
  have hobjs : cPathfinder.objects = [cBlock] := by
    simp [cPathfinder, Pathfinder.new, sortObjects]
  have hw : cPathfinder.max_obj_width = 40 := by
    norm_num [cPathfinder, Pathfinder.new, sortObjects, maxObjWidth, cBlock]
  have hcfg : cPathfinder.config = Config.default := by
    simp [cPathfinder, Pathfinder.new]
  have hmain : cPathfinder.apply_landing_logic cPrev cNextDeep =
      snapToSurface PhysicsParams.default { cNextDeep with on_ground := false } cBlock := by
    simp only [Pathfinder.apply_landing_logic, hobjs, hw, hcfg, Config.default]
    norm_num [cPrev, cNextDeep, PhysicsParams.default, List.dropWhile, landingScan,
      landingConditions, OBB2D.new0, OBB2D.overlaps, OBB2D.separatedOn, OBB2D.project_onto,
      Vec2.dot, Vec2.smul, Vec2.add, Vec2.sub, cBlock,
      Matrix.cons_val_zero, Matrix.cons_val_one, Matrix.head_cons, abs_zero]
  rw [hmain]
  refine ⟨rfl, ?_, ?_⟩
  · norm_num [snapToSurface, cBlock, PhysicsParams.default, cNextDeep, cPrev]
  · norm_num [cNextDeep, cPrev, cBlock, PhysicsParams.default]

/-- C2 (amended): the landing snap for a candidate object fires only if the
    new player-bottom lies in `[obj_bottom, surface + 5]` in non-flipped
    gravity (resp. `[surface − 5, obj_top]` when flipped, with
    `surface = obj_bottom`): the band's far edge is the opposite face of the
    object, not `surface − 5`. -/
theorem C2_landing_zone (params : PhysicsParams) (prev_pb pb : ℚ) (next_state : State)
    (obj : GameObject)
    (h : landingConditions params prev_pb pb next_state obj = true) :
    if next_state.gravity_flipped then
      obj.position.y - obj.height * 0.5 - 5 ≤ pb ∧ pb ≤ obj.position.y + obj.height * 0.5
    else
      obj.position.y - obj.height * 0.5 ≤ pb ∧ pb ≤ obj.position.y + obj.height * 0.5 + 5 := by
  simp only [landingConditions] at h
  by_cases hg : next_state.gravity_flipped = true
  · rw [if_pos hg] at h
    simp only [Bool.and_eq_true, decide_eq_true_eq] at h
    obtain ⟨⟨⟨-, -⟩, hzone⟩, -⟩ := h
    rw [if_pos hg]
    exact ⟨by linarith [hzone.1], by linarith [hzone.2]⟩
  · rw [if_neg hg] at h
    simp only [Bool.and_eq_true, decide_eq_true_eq] at h
    obtain ⟨⟨⟨-, -⟩, hzone⟩, -⟩ := h
    rw [if_neg hg]
    exact ⟨by linarith [hzone.2], by linarith [hzone.1]⟩

/-- C2 witness: a landing with player-bottom 29 on `cBlock` (band
    `[0, 35]`). -/
theorem C2_witness :
    if cNextBand.gravity_flipped then
      cBlock.position.y - cBlock.height * 0.5 - 5 ≤ 29
        ∧ (29 : ℚ) ≤ cBlock.position.y + cBlock.height * 0.5
    else
      cBlock.position.y - cBlock.height * 0.5 ≤ 29
        ∧ (29 : ℚ) ≤ cBlock.position.y + cBlock.height * 0.5 + 5 :=
  C2_landing_zone PhysicsParams.default 31 29 cNextBand cBlock (by
    norm_num [landingConditions, cNextBand, cPrev, cBlock, PhysicsParams.default])

/-! ### C4 — Ship-mode grazing survivability on Solid objects -/

set_option maxHeartbeats 4000000 in
/-- C4 (counterexample): a Ship state overlapping a Solid with center-y 10
    above the object's top (not within 5 of top or bottom) is nevertheless
    survivable — the source's zone test is one-sided (`center ≥ top − 5`),
    not a ±5 band. -/
theorem C4_counterexample :
    cShipState.mode = GameMode.Ship
      ∧ cShipSolid.object_type = GameObjectType.Solid
      ∧ isColliding cShipState PhysicsParams.default cShipSolid = true
      ∧ objectCollision cShipState PhysicsParams.default cShipSolid = none
      ∧ ¬ specShipGrazeSurvivable cShipState PhysicsParams.default cShipSolid := by
  refine ⟨rfl, rfl, ?_, ?_, ?_⟩
  · norm_num [isColliding, cShipState, cShipSolid, cBlock, PhysicsParams.default,
      OBB2D.new0, OBB2D.overlaps, OBB2D.separatedOn, OBB2D.project_onto,
      Vec2.dot, Vec2.smul, Vec2.add, Vec2.sub,
      Matrix.cons_val_zero, Matrix.cons_val_one, Matrix.head_cons]
  · norm_num [objectCollision, isColliding, cShipState, cShipSolid, cBlock,
      PhysicsParams.default, OBB2D.new0, OBB2D.overlaps, OBB2D.separatedOn,
      OBB2D.project_onto, Vec2.dot, Vec2.smul, Vec2.add, Vec2.sub,
      Matrix.cons_val_zero, Matrix.cons_val_one, Matrix.head_cons, abs_zero]
  · simp only [specShipGrazeSurvivable, cShipState, cShipSolid, cBlock]
    rintro ⟨-, -, h1 | h2⟩
    · rw [abs_of_nonneg (by norm_num)] at h1
      norm_num at h1
    · rw [abs_of_nonneg (by norm_num)] at h2
      norm_num at h2

/-- C4 (amended): for a Ship state overlapping a nearby Solid object, the
    loop body survives (returns `none`) exactly when the vertical overlap is
    < 15, the horizontal overlap is > 5, and the player's center-y is at or
    above `obj_top − 5` **or** at or below `obj_bottom + 5` (one-sided
    conditions, not a ±5 band); otherwise it returns the object's id. -/
theorem C4_ship_solid_rule (state : State) (obj : GameObject) (params : PhysicsParams)
    (hmode : state.mode = GameMode.Ship)
    (htype : obj.object_type = GameObjectType.Solid)
    (hnear : ¬ (|obj.position.x - state.position.x| > 200))
    (hcol : isColliding state params obj = true) :
    objectCollision state params obj =
      if (state.position.y ≥ obj.position.y + obj.height * 0.5 - 5
            ∨ state.position.y ≤ obj.position.y - obj.height * 0.5 + 5)
          ∧ min (state.position.y + params.player_height * 0.5)
                (obj.position.y + obj.height * 0.5)
              - max (state.position.y - params.player_height * 0.5)
                  (obj.position.y - obj.height * 0.5) < 15
          ∧ min (state.position.x + params.player_width * 0.5)
                (obj.position.x + obj.width * 0.5)
              - max (state.position.x - params.player_width * 0.5)
                  (obj.position.x - obj.width * 0.5) > 5
      then none else some obj.id := by
  simp only [objectCollision, if_neg hnear, hcol, htype, hmode, Bool.not_true,
    Bool.false_eq_true, if_false, if_true]

/-- C4 witness: the rule applied at the grazing configuration
    (`cShipState` over `cShipSolid`) yields survivable contact. -/
theorem C4_witness :
    objectCollision cShipState PhysicsParams.default cShipSolid =
      if (cShipState.position.y ≥ cShipSolid.position.y + cShipSolid.height * 0.5 - 5
            ∨ cShipState.position.y ≤ cShipSolid.position.y - cShipSolid.height * 0.5 + 5)
          ∧ min (cShipState.position.y + PhysicsParams.default.player_height * 0.5)
                (cShipSolid.position.y + cShipSolid.height * 0.5)
              - max (cShipState.position.y - PhysicsParams.default.player_height * 0.5)
                  (cShipSolid.position.y - cShipSolid.height * 0.5) < 15
          ∧ min (cShipState.position.x + PhysicsParams.default.player_width * 0.5)
                (cShipSolid.position.x + cShipSolid.width * 0.5)
              - max (cShipState.position.x - PhysicsParams.default.player_width * 0.5)
                  (cShipSolid.position.x - cShipSolid.width * 0.5) > 5
      then none else some cShipSolid.id :=
  C4_ship_solid_rule cShipState cShipSolid PhysicsParams.default rfl rfl
    (by simp [cShipState, cShipSolid, cBlock])
    (by norm_num [isColliding, cShipState, cShipSolid, cBlock, PhysicsParams.default,
      OBB2D.new0, OBB2D.overlaps, OBB2D.separatedOn, OBB2D.project_onto,
      Vec2.dot, Vec2.smul, Vec2.add, Vec2.sub,
      Matrix.cons_val_zero, Matrix.cons_val_one, Matrix.head_cons])

/-! ### C7 — stagnation check in step_single -/

/-- One expansion step never touches `checkpoint_best_x`. -/
theorem expandAction_cbx (pf : Pathfinder) (g : ℚ) (i : ℕ) (cn : Node)
    (s : SearchSession) (a : Action) :
    (expandAction pf g i cn s a).checkpoint_best_x = s.checkpoint_best_x := by
  simp only [expandAction]
  repeat' split
  all_goals rfl

/-- One expansion step never touches `checkpoint_nodes`. -/
theorem expandAction_cnodes (pf : Pathfinder) (g : ℚ) (i : ℕ) (cn : Node)
    (s : SearchSession) (a : Action) :
    (expandAction pf g i cn s a).checkpoint_nodes = s.checkpoint_nodes := by
  simp only [expandAction]
  repeat' split
  all_goals rfl

/-- The expansion fold never touches `checkpoint_best_x`. -/
theorem expandFold_cbx (pf : Pathfinder) (g : ℚ) (i : ℕ) (cn : Node) :
    ∀ (acts : List Action) (s : SearchSession),
      (acts.foldl (expandAction pf g i cn) s).checkpoint_best_x = s.checkpoint_best_x
  | [], _ => rfl
  | a :: as, s =>
    (expandFold_cbx pf g i cn as (expandAction pf g i cn s a)).trans
      (expandAction_cbx pf g i cn s a)

/-- The expansion fold never touches `checkpoint_nodes`. -/
theorem expandFold_cnodes (pf : Pathfinder) (g : ℚ) (i : ℕ) (cn : Node) :
    ∀ (acts : List Action) (s : SearchSession),
      (acts.foldl (expandAction pf g i cn) s).checkpoint_nodes = s.checkpoint_nodes
  | [], _ => rfl
  | a :: as, s =>
    (expandFold_cnodes pf g i cn as (expandAction pf g i cn s a)).trans
      (expandAction_cnodes pf g i cn s a)

/-- The pop-and-expand phase never touches `checkpoint_best_x`. -/
theorem expandPhase_cbx (pf : Pathfinder) (s : SearchSession) (g : ℚ) :
    (expandPhase pf s g).2.checkpoint_best_x = s.checkpoint_best_x := by
  simp only [expandPhase]
  repeat' split
  all_goals first | rfl | (rw [expandFold_cbx])

/-- The pop-and-expand phase never touches `checkpoint_nodes`. -/
theorem expandPhase_cnodes (pf : Pathfinder) (s : SearchSession) (g : ℚ) :
    (expandPhase pf s g).2.checkpoint_nodes = s.checkpoint_nodes := by
  simp only [expandPhase]
  repeat' split
  all_goals first | rfl | (rw [expandFold_cnodes])

/-- C7: when `step_single` performs a stagnation check (the expansion counter
    has advanced by `stagnation_check_interval` past the checkpoint) on a
    live session, insufficient progress terminates the search with
    `goal_reached_index = some best_x_index` and the session otherwise
    unchanged; sufficient progress updates both checkpoint values and the
    search continues into the pop-and-expand phase. -/
theorem C7_stagnation_check (pf : Pathfinder) (session : SearchSession) (goal_x : ℚ)
    (hgoal : session.goal_reached_index = none)
    (hopen : session.open_set ≠ [])
    (hcheck : session.nodes_expanded ≥
        session.checkpoint_nodes + pf.config.search.stagnation_check_interval) :
    (session.best_x - session.checkpoint_best_x
          < pf.config.search.min_progress_per_interval →
        pf.step_single session goal_x =
          (true, { session with goal_reached_index := some session.best_x_index }))
      ∧ (¬ session.best_x - session.checkpoint_best_x
            < pf.config.search.min_progress_per_interval →
          (pf.step_single session goal_x).2.checkpoint_best_x = session.best_x
            ∧ (pf.step_single session goal_x).2.checkpoint_nodes
                = session.nodes_expanded) := by
  have hcond : ¬ (session.goal_reached_index.isSome = true ∨ session.open_set = []) := by
    simp [hgoal, hopen]
  constructor
  · intro hprog
    simp only [Pathfinder.step_single]
    rw [if_neg hcond, if_pos hcheck, if_pos hprog]
  · intro hprog
    simp only [Pathfinder.step_single]
    rw [if_neg hcond, if_pos hcheck, if_neg hprog]
    exact ⟨expandPhase_cbx pf _ goal_x, expandPhase_cnodes pf _ goal_x⟩

/-- C7 witness: the stagnation rule fires on the concrete stalled session. -/
theorem C7_witness :
    Pathfinder.step_single (Pathfinder.new [] 100) cStagSess 100 =
      (true, { cStagSess with goal_reached_index := some cStagSess.best_x_index }) :=
  (C7_stagnation_check (Pathfinder.new [] 100) cStagSess 100 rfl (by simp [cStagSess])
      (by norm_num [cStagSess, Pathfinder.new, Config.default, SearchConfig.default])).1
    (by norm_num [cStagSess, Pathfinder.new, Config.default, SearchConfig.default])

/-! ### C8 — open-set comparator is a strict total order -/

theorem qcompare_lt (a b : ℚ) (h : a < b) : qcompare a b = .lt := by
  unfold qcompare
  rw [if_pos h]

theorem qcompare_gt (a b : ℚ) (h : b < a) : qcompare a b = .gt := by
  unfold qcompare
  rw [if_neg (by linarith), if_pos h]

theorem qcompare_self (a b : ℚ) (h : a = b) : qcompare a b = .eq := by
  unfold qcompare
  rw [if_neg (by simp [h]), if_neg (by simp [h])]

theorem ncompare_gt_iff {a b : ℕ} : ncompare a b = .gt ↔ b < a := by
  unfold ncompare
  split_ifs with h1 h2 <;> simp <;> omega

theorem ncompare_eq_iff {a b : ℕ} : ncompare a b = .eq ↔ a = b := by
  unfold ncompare
  split_ifs with h1 h2 <;> simp <;> omega

theorem cmp_gt_iff (a b : NodeIndexWrapper) :
    a.cmp b = .gt ↔
      a.f < b.f ∨ (a.f = b.f ∧ b.x < a.x) ∨ (a.f = b.f ∧ a.x = b.x ∧ b.index < a.index) := by
  unfold NodeIndexWrapper.cmp
  rcases lt_trichotomy a.f b.f with hf | hf | hf
  · rw [qcompare_gt b.f a.f hf]
    exact iff_of_true rfl (Or.inl hf)
  · rw [qcompare_self b.f a.f hf.symm]
    rcases lt_trichotomy a.x b.x with hx | hx | hx
    · rw [qcompare_lt a.x b.x hx]
      constructor
      · intro hh
        simp at hh
      · rintro (h | ⟨-, h⟩ | ⟨-, h, -⟩) <;> linarith
    · rw [qcompare_self a.x b.x hx]
      rw [ncompare_gt_iff]
      constructor
      · intro h
        exact Or.inr (Or.inr ⟨hf, hx, h⟩)
      · rintro (h | ⟨-, h⟩ | ⟨-, -, h⟩)
        · linarith
        · linarith
        · exact h
    · rw [qcompare_gt a.x b.x hx]
      exact iff_of_true rfl (Or.inr (Or.inl ⟨hf, hx⟩))
  · rw [qcompare_lt b.f a.f hf]
    constructor
    · intro hh
      simp at hh
    · rintro (h | ⟨h, -⟩ | ⟨h, -, -⟩) <;> linarith

theorem cmp_eq_iff (a b : NodeIndexWrapper) :
    a.cmp b = .eq ↔ a.f = b.f ∧ a.x = b.x ∧ a.index = b.index := by
  unfold NodeIndexWrapper.cmp
  rcases lt_trichotomy a.f b.f with hf | hf | hf
  · rw [qcompare_gt b.f a.f hf]
    constructor
    · intro hh
      simp at hh
    · rintro ⟨h, -, -⟩
      linarith
  · rw [qcompare_self b.f a.f hf.symm]
    rcases lt_trichotomy a.x b.x with hx | hx | hx
    · rw [qcompare_lt a.x b.x hx]
      constructor
      · intro hh
        simp at hh
      · rintro ⟨-, h, -⟩
        linarith
    · rw [qcompare_self a.x b.x hx]
      rw [ncompare_eq_iff]
      constructor
      · intro h
        exact ⟨hf, hx, h⟩
      · rintro ⟨-, -, h⟩
        exact h
    · rw [qcompare_gt a.x b.x hx]
      constructor
      · intro hh
        simp at hh
      · rintro ⟨-, h, -⟩
        linarith
  · rw [qcompare_lt b.f a.f hf]
    constructor
    · intro hh
      simp at hh
    · rintro ⟨h, -, -⟩
      linarith

theorem cmp_trans (a b c : NodeIndexWrapper)
    (h1 : a.cmp b = .gt) (h2 : b.cmp c = .gt) : a.cmp c = .gt := by
  rcases (cmp_gt_iff a b).mp h1 with h | ⟨hf, hx⟩ | ⟨hf, hx, hi⟩ <;>
    rcases (cmp_gt_iff b c).mp h2 with g | ⟨gf, gx⟩ | ⟨gf, gx, gi⟩ <;>
    apply (cmp_gt_iff a c).mpr <;>
    first
      | exact Or.inl (by linarith)
      | exact Or.inr (Or.inl ⟨by linarith, by linarith⟩)
      | exact Or.inr (Or.inr ⟨by linarith, by linarith, by omega⟩)

theorem cmp_total (a b : NodeIndexWrapper) (hidx : a.index ≠ b.index) :
    a.cmp b = .gt ↔ ¬ b.cmp a = .gt := by
  rw [cmp_gt_iff, cmp_gt_iff]
  constructor
  · rintro (h | ⟨hf, hx⟩ | ⟨hf, hx, hi⟩) <;> rintro (g | ⟨gf, gx⟩ | ⟨gf, gx, gi⟩) <;>
      first | linarith | omega
  · intro hne
    push_neg at hne
    obtain ⟨hne1, hne2, hne3⟩ := hne
    rcases lt_trichotomy a.f b.f with hf | hf | hf
    · exact Or.inl hf
    · rcases lt_trichotomy a.x b.x with hx | hx | hx
      · have := hne2 hf.symm
        linarith
      · rcases Nat.lt_trichotomy a.index b.index with hi | hi | hi
        · have := hne3 hf.symm hx.symm
          omega
        · exact absurd hi hidx
        · exact Or.inr (Or.inr ⟨hf, hx, hi⟩)
      · exact Or.inr (Or.inl ⟨hf, hx⟩)
    · linarith

theorem heapMax_unique (l : List NodeIndexWrapper)
    (hp : l.Pairwise (fun u v => u.index ≠ v.index))
    (m1 m2 : NodeIndexWrapper) (h1 : m1 ∈ l) (h2 : m2 ∈ l)
    (hm1 : ∀ w ∈ l, w.cmp m1 ≠ .gt) (hm2 : ∀ w ∈ l, w.cmp m2 ≠ .gt) : m1 = m2 := by
  by_contra hne
  have hsym : Symmetric (fun u v : NodeIndexWrapper => u.index ≠ v.index) :=
    fun _ _ h => Ne.symm h
  have hidx : m1.index ≠ m2.index := hp.forall hsym h1 h2 hne
  exact (hm2 m1 h1) ((cmp_total m1 m2 hidx).mpr (hm1 m2 h2))

/-- C8: the open-set comparator chain (lower `f`, then higher `x`, then
    insertion index) is a strict total order on entries — transitive,
    asymmetric-total on entries with distinct insertion indices, with `eq`
    exactly on identical `(f, x, index)` triples — and therefore the
    `cmp`-greatest element popped from the open set is unique, so for a fixed
    `(Pathfinder, start_state, goal_x, config)` the popped-node sequence is
    a deterministic function of the session. -/
theorem C8_comparator_total_order :
    (∀ a b c : NodeIndexWrapper, a.cmp b = .gt → b.cmp c = .gt → a.cmp c = .gt)
      ∧ (∀ a b : NodeIndexWrapper, a.index ≠ b.index →
          (a.cmp b = .gt ↔ ¬ b.cmp a = .gt))
      ∧ (∀ a b : NodeIndexWrapper,
          a.cmp b = .eq ↔ a.f = b.f ∧ a.x = b.x ∧ a.index = b.index)
      ∧ (∀ l : List NodeIndexWrapper, l.Pairwise (fun u v => u.index ≠ v.index) →
          ∀ m1 m2 : NodeIndexWrapper, m1 ∈ l → m2 ∈ l →
            (∀ w ∈ l, w.cmp m1 ≠ .gt) → (∀ w ∈ l, w.cmp m2 ≠ .gt) → m1 = m2) :=
  ⟨cmp_trans, cmp_total, cmp_eq_iff, heapMax_unique⟩

/-- C8 witness: transitivity applied at three concrete entries. -/
theorem C8_witness :
    (⟨1, 9, 5⟩ : NodeIndexWrapper).cmp ⟨3, 7, 3⟩ = .gt :=
  C8_comparator_total_order.1 ⟨1, 9, 5⟩ ⟨2, 8, 4⟩ ⟨3, 7, 3⟩
    (by norm_num [NodeIndexWrapper.cmp, qcompare])
    (by norm_num [NodeIndexWrapper.cmp, qcompare])

/-! ### C3 — Ship-mode acceleration selection when not pressing -/

set_option maxHeartbeats 2000000 in
/-- C3 (counterexample): a non-pressing Ship state falling at `vy = −200`
    (past the threshold `T = ship_velocities[0] · 1` downward) receives the
    weak acceleration `−894.1146`, not `−1341.1719`: one physics step changes
    `vy` to `−203.725`, where the claimed strong acceleration would give
    `−205.588`. -/
theorem C3_counterexample :
    specPastThresholdDownward 1 (-200) (PhysicsParams.default.ship_velocities 0 * 1)
      ∧ shipAccel false 1 (-200) (PhysicsParams.default.ship_velocities 0 * 1)
          = -894.1146 * 1
      ∧ (physics.simulate_step cShipFall Action.None PhysicsParams.default).vy = -203.725
      ∧ (-203.725 : ℚ) ≠
          (rustRound ((-200 + -1341.1719 * 1 * (1 / 240)) * 1000) : ℚ) / 1000 := by
  refine ⟨?_, by norm_num [shipAccel, PhysicsParams.default], ?_, ?_⟩
  · simp only [specPastThresholdDownward]
    norm_num [PhysicsParams.default]
  · simp only [physics.simulate_step, cShipFall, PhysicsParams.default, shipAccel, rustRound,
      rustClamp, f32MAX, Matrix.cons_val_zero, Matrix.cons_val_one, Matrix.head_cons]
    norm_num
  · simp only [rustRound]
    norm_num

/-- C3 (amended): with `pressing = false` the step applies `−1341.1719 · gm`
    exactly when `vy` is at or past the threshold in the **upward**
    (gm-aligned) sense — `vy · gm ≥ ship_velocities[speed]` — and
    `−894.1146 · gm` otherwise. -/
theorem C3_ship_accel_selection (sv vy gm : ℚ) (hgm : gm = 1 ∨ gm = -1) :
    shipAccel false gm vy (sv * gm) =
      if vy * gm ≥ sv then -1341.1719 * gm else -894.1146 * gm := by
  have hs : ∀ g T : ℚ, shipAccel false g vy T =
      if (g > 0 ∧ vy ≥ T) ∨ (g < 0 ∧ vy ≤ T) then -1341.1719 * g else -894.1146 * g := by
    intro g T
    simp [shipAccel]
  rcases hgm with h | h <;> subst h
  · rw [hs]
    by_cases hv : vy * 1 ≥ sv
    · rw [if_pos (Or.inl ⟨by norm_num, by linarith⟩), if_pos hv]
    · rw [if_neg ?hneg1, if_neg hv]
      case hneg1 =>
        rintro (⟨-, hh⟩ | ⟨hh, -⟩)
        · exact hv (by linarith)
        · norm_num at hh
  · rw [hs]
    by_cases hv : vy * (-1) ≥ sv
    · rw [if_pos (Or.inr ⟨by norm_num, by linarith⟩), if_pos hv]
    · rw [if_neg ?hneg2, if_neg hv]
      case hneg2 =>
        rintro (⟨hh, -⟩ | ⟨-, hh⟩)
        · norm_num at hh
        · exact hv (by linarith)

/-- C3 witness: at `gm = 1`, `sv = 101.54149`, `vy = 200` the strong
    deceleration is selected. -/
theorem C3_witness :
    shipAccel false 1 200 (101.54149 * 1) = -1341.1719 * 1 := by
  have h := C3_ship_accel_selection 101.54149 200 1 (Or.inl rfl)
  rwa [if_pos (by norm_num)] at h

/-! ### C5 — state-key stability under sub-quantization differences -/

/-- C5 (counterexample): two states that differ only in `x`, by
    `0.15 < x_quant = 1` (all other fields equal, `y`/`vy` differences zero),
    straddle a quantization boundary and produce different `StateKey`s. -/
theorem C5_counterexample :
    |cKeyA.position.x - cKeyB.position.x| < 1
      ∧ cKeyA.position.y = cKeyB.position.y ∧ cKeyA.vy = cKeyB.vy
      ∧ cKeyA.on_ground = cKeyB.on_ground
      ∧ cKeyA.gravity_flipped = cKeyB.gravity_flipped
      ∧ cKeyA.pressing = cKeyB.pressing ∧ cKeyA.mode = cKeyB.mode
      ∧ cKeyA.speed = cKeyB.speed ∧ cKeyA.rotation = cKeyB.rotation
      ∧ cKeyA.floor = cKeyB.floor ∧ cKeyA.ceiling = cKeyB.ceiling
      ∧ StateKey.from_state cKeyA 1 1 10 ≠ StateKey.from_state cKeyB 1 1 10 := by
  refine ⟨?_, rfl, rfl, rfl, rfl, rfl, rfl, rfl, rfl, rfl, rfl, ?_⟩
  · rw [show cKeyA.position.x - cKeyB.position.x = -(3/20) by norm_num [cKeyA, cKeyB]]
    rw [abs_neg, abs_of_nonneg (by norm_num)]
    norm_num
  · simp only [StateKey.from_state, i32floor, castI32, toU32, cKeyA, cKeyB, f32MAX]
    norm_num
    decide

/-- C5 (amended): `StateKey::from_state` is invariant for states in the same
    quantization bucket — equal floored quotients for `x`, `y`, `vy` and
    equal remaining key-relevant fields give equal keys (a sub-quantization
    *difference* can still straddle a bucket boundary, per the
    counterexample). -/
theorem C5_key_stability (s1 s2 : State) (xq yq vq : ℚ)
    (hx : ⌊s1.position.x / xq⌋ = ⌊s2.position.x / xq⌋)
    (hy : ⌊s1.position.y / yq⌋ = ⌊s2.position.y / yq⌋)
    (hvy : ⌊s1.vy / vq⌋ = ⌊s2.vy / vq⌋)
    (hceil : s1.ceiling = s2.ceiling) (hog : s1.on_ground = s2.on_ground)
    (hgf : s1.gravity_flipped = s2.gravity_flipped) (hpr : s1.pressing = s2.pressing)
    (hm : s1.mode = s2.mode) (hsp : s1.speed = s2.speed) :
    StateKey.from_state s1 xq yq vq = StateKey.from_state s2 xq yq vq := by
  simp only [StateKey.from_state, i32floor, hx, hy, hvy, hceil, hog, hgf, hpr, hm, hsp]

/-- C5 witness: states at `x = 0.9` and `x = 0.5` (same bucket for
    `x_quant = 1`) share a key. -/
theorem C5_witness :
    StateKey.from_state cKeyA 1 1 10 =
      StateKey.from_state { cKeyA with position := ⟨0.5, 15⟩ } 1 1 10 := by
  apply C5_key_stability <;> first | rfl | (simp only [cKeyA]; norm_num)

/-! ### C10 — Pathfinder construction ignores goal_x -/

/-- C10: `Pathfinder::new(objects, goal_x)` does not depend on `goal_x`
    (the parameter is unused), and the stored configuration is the
    default. -/
theorem C10_new_ignores_goal (objects : List GameObject) (g1 g2 : ℚ) :
    Pathfinder.new objects g1 = Pathfinder.new objects g2 ∧
      (Pathfinder.new objects g1).config = Config.default := ⟨rfl, rfl⟩

/-! ### C9 — arena invariants through the search -/

/-- The heuristic is nonnegative under a valid configuration. -/
theorem heuristic_nonneg (state : State) (goal_x : ℚ) (speeds : Fin 5 → ℚ) (w : ℚ)
    (hw : 0 ≤ w) (hs : ∀ i, 0 ≤ speeds i) : 0 ≤ heuristic state goal_x speeds w := by
  simp only [heuristic]
  apply mul_nonneg _ hw
  apply add_nonneg (div_nonneg (le_max_right _ _) (hs _))
  split_ifs
  · positivity
  · exact le_refl 0

/-- The freshly seeded session satisfies the invariant. -/
theorem start_search_inv (pf : Pathfinder) (p : Vec2) (g : ℚ)
    (hv : validConfig pf.config) : sessionInv (pf.start_search p g) := by
  obtain ⟨hdt, hw, hsp⟩ := hv
  constructor
  · intro i hi
    simp only [Pathfinder.start_search, SearchSession.new, List.length_cons,
      List.length_nil] at hi
    have hi0 : i = 0 := by omega
    subst hi0
    simp only [Pathfinder.start_search, SearchSession.new, List.getElem_cons_zero]
    refine ⟨le_refl 0, ?_, ?_⟩
    · simpa using heuristic_nonneg _ g _ _ hw hsp
    · intro p2 hp2
      simp at hp2
  · intro w hw2
    simp only [Pathfinder.start_search, SearchSession.new, List.mem_singleton] at hw2
    subst hw2
    simp [Pathfinder.start_search, SearchSession.new]

/-- One expansion step preserves the session invariant and the arena bound
    of the parent index. -/
theorem expandAction_inv (pf : Pathfinder) (g : ℚ) (i : ℕ) (cn : Node)
    (hv : validConfig pf.config) (hg : 0 ≤ cn.g)
    (s : SearchSession) (a : Action)
    (hs : sessionInv s) (hi : i < s.all_nodes.length) :
    sessionInv (expandAction pf g i cn s a)
      ∧ i < (expandAction pf g i cn s a).all_nodes.length := by
  obtain ⟨hdt, hw, hsp⟩ := hv
  obtain ⟨hnode, hopen⟩ := hs
  simp only [expandAction]
  split
  · exact ⟨⟨hnode, hopen⟩, hi⟩
  · split
    · exact ⟨⟨hnode, hopen⟩, hi⟩
    · refine ⟨⟨?_, ?_⟩, ?_⟩
      · intro j hj
        simp only [List.length_append, List.length_cons, List.length_nil] at hj
        by_cases hjl : j < s.all_nodes.length
        · rw [List.getElem_append_left hjl]
          exact hnode j hjl
        · have hj0 : j = s.all_nodes.length := by omega
          subst hj0
          rw [List.getElem_concat_length _ _ _ rfl]
          dsimp only
          refine ⟨?_, ?_, ?_⟩
          · split_ifs <;> linarith
          · exact le_add_of_nonneg_right (heuristic_nonneg _ _ _ _ hw hsp)
          · intro p hp
            simp only [Option.some.injEq] at hp
            omega
      · intro w hw2
        simp only [List.mem_append, List.mem_singleton] at hw2
        simp only [List.length_append, List.length_cons, List.length_nil]
        rcases hw2 with h | h
        · have := hopen w h
          omega
        · subst h
          simp
      · simp only [List.length_append, List.length_cons, List.length_nil]
        omega

/-- The expansion fold preserves the session invariant. -/
theorem expandFold_inv (pf : Pathfinder) (g : ℚ) (i : ℕ) (cn : Node)
    (hv : validConfig pf.config) (hg : 0 ≤ cn.g) :
    ∀ (acts : List Action) (s : SearchSession), sessionInv s → i < s.all_nodes.length →
      sessionInv (acts.foldl (expandAction pf g i cn) s)
        ∧ i < (acts.foldl (expandAction pf g i cn) s).all_nodes.length
  | [], _, hs, hi => ⟨hs, hi⟩
  | a :: as, s, hs, hi => by
    have h1 := expandAction_inv pf g i cn hv hg s a hs hi
    exact expandFold_inv pf g i cn hv hg as _ h1.1 h1.2

/-- The maximum selected by the pop fold is an element of the heap. -/
theorem heapPop_choose_mem :
    ∀ (t : List NodeIndexWrapper) (a : NodeIndexWrapper),
      t.foldl (fun best w => if w.cmp best = .gt then w else best) a ∈ a :: t
  | [], a => List.mem_singleton_self a
  | b :: t, a => by
    simp only [List.foldl_cons]
    have hstep : (if b.cmp a = .gt then b else a) ∈ a :: b :: t := by
      split_ifs <;> simp
    have ih := heapPop_choose_mem t (if b.cmp a = .gt then b else a)
    rcases List.mem_cons.mp ih with h | h
    · rw [h]
      exact hstep
    · exact List.mem_cons_of_mem _ (List.mem_cons_of_mem _ h)

/-- `heapPop` returns a member and a sublist of the heap. -/
theorem heapPop_spec (l : List NodeIndexWrapper) (w : NodeIndexWrapper)
    (rest : List NodeIndexWrapper) (h : heapPop l = some (w, rest)) :
    w ∈ l ∧ ∀ u ∈ rest, u ∈ l := by
  cases l with
  | nil => simp [heapPop] at h
  | cons a t =>
    simp only [heapPop, Option.some.injEq, Prod.mk.injEq] at h
    obtain ⟨hw, hrest⟩ := h
    constructor
    · exact hw ▸ heapPop_choose_mem t a
    · intro u hu
      rw [← hrest] at hu
      exact List.erase_subset _ _ hu

/-- The pop-and-expand phase preserves the session invariant. -/
theorem expandPhase_inv (pf : Pathfinder) (s : SearchSession) (g : ℚ)
    (hv : validConfig pf.config) (hs : sessionInv s) :
    sessionInv (expandPhase pf s g).2 := by
  obtain ⟨hnode, hopen⟩ := hs
  cases hp : heapPop s.open_set with
  | none =>
    simp only [expandPhase, hp]
    exact ⟨hnode, hopen⟩
  | some pr =>
    obtain ⟨w, rest⟩ := pr
    obtain ⟨hwmem, hrest⟩ := heapPop_spec s.open_set w rest hp
    have hwidx : w.index < s.all_nodes.length := hopen w hwmem
    have hs1 : sessionInv { s with open_set := rest } :=
      ⟨hnode, fun u hu => hopen u (hrest u hu)⟩
    simp only [expandPhase, hp]
    cases hg2 : s.all_nodes.get? w.index with
    | none =>
      simp only [hg2]
      exact hs1
    | some cn =>
      simp only [hg2]
      have hcng : 0 ≤ cn.g := by
        obtain ⟨hb, hget⟩ := List.get?_eq_some.mp hg2
        have hh := (hnode w.index hb).1
        have hcg : s.all_nodes[w.index] = cn := hget
        rwa [hcg] at hh
      repeat' split
      all_goals
        first
          | exact hs1
          | (refine (expandFold_inv pf g w.index cn hv hcng (actionsToTry cn.state)
                _ ?_ ?_).1
             · exact ⟨hnode, fun u hu => hopen u (hrest u hu)⟩
             · exact hwidx)

/-- `step_single` preserves the session invariant. -/
theorem step_single_inv (pf : Pathfinder) (sess : SearchSession) (g : ℚ)
    (hv : validConfig pf.config) (hs : sessionInv sess) :
    sessionInv (pf.step_single sess g).2 := by
  simp only [Pathfinder.step_single]
  repeat' split
  all_goals first | exact hs | exact expandPhase_inv pf _ g hv hs

/-- Iterated stepping preserves the session invariant. -/
theorem stepIter_inv (pf : Pathfinder) (g : ℚ) (hv : validConfig pf.config) :
    ∀ (n : ℕ) (sess : SearchSession), sessionInv sess → sessionInv (stepIter pf g n sess)
  | 0, _, hs => hs
  | n + 1, sess, hs => stepIter_inv pf g hv n _ (step_single_inv pf sess g hv hs)

/-- C9: at every point of a search run under a valid configuration, every
    arena node has `g ≥ 0`, `f ≥ g`, and a parent index strictly below its
    own index. -/
theorem C9_arena_invariant (pf : Pathfinder) (start_pos : Vec2) (goal_x : ℚ) (n : ℕ)
    (hv : validConfig pf.config) :
    nodeInv (stepIter pf goal_x n (pf.start_search start_pos goal_x)) :=
  (stepIter_inv pf goal_x hv n _ (start_search_inv pf start_pos goal_x hv)).1

/-- C9 witness: three steps of a search on the empty level under the default
    configuration. -/
theorem C9_witness :
    nodeInv (stepIter (Pathfinder.new [] 100) 100 3
      ((Pathfinder.new [] 100).start_search ⟨0, 15⟩ 100)) :=
  C9_arena_invariant (Pathfinder.new [] 100) ⟨0, 15⟩ 100 3 (by
    refine ⟨by norm_num [Pathfinder.new, Config.default, PhysicsParams.default],
      by norm_num [Pathfinder.new, Config.default, SearchConfig.default], ?_⟩
    intro i
    fin_cases i <;> norm_num [Pathfinder.new, Config.default, PhysicsParams.default])

end Redox
